import Mathlib

/-!
A shallow embedding of the MCP-SSE client (`client.py`) and proofs of the
specification's claims about it.

The embedding renders the Python code as pure Lean functions:

* JSON values carry Python truthiness (`Json.truthy`), because the source
  tests `tool.inputSchema` and `result.content` for truthiness.
* The Anthropic completion endpoint and the MCP `call_tool` endpoint are
  external collaborators; they enter as oracle functions.  A call that may
  raise is an `Except String` value, the `String` being `str(e)`.
* `chat_with_tools` returns, besides its string result (or the propagated
  completion-call failure), an event log: the completion requests it issued
  in order, and the tool dispatches it performed in order.  The log fields
  record effects the Python code performs; they add nothing to the control
  flow.
-/

/-- JSON values, as passed around by the Python client. -/
inductive Json where
  | null
  | bool (b : Bool)
  | num (n : Int)
  | str (s : String)
  | arr (elems : List Json)
  | obj (fields : List (String × Json))
deriving Repr

/-- Python truthiness of a JSON value: `None`, `False`, `0`, `""`, `[]`
and `{}` are falsy, everything else is truthy.  The source relies on this
in `if hasattr(tool, 'inputSchema') and tool.inputSchema:` and in
`if result.content and len(result.content) > 0:`. -/
def Json.truthy : Json → Bool
  | .null => false
  | .bool b => b
  | .num n => n != 0
  | .str s => !s.isEmpty
  | .arr elems => !elems.isEmpty
  | .obj fields => !fields.isEmpty

/-- An MCP tool descriptor as returned by `list_tools()`: `inputSchema = none`
models the attribute being absent (`hasattr` false). -/
structure ToolDescriptor where
  name : String
  description : Option String
  inputSchema : Option Json
deriving Repr

/-- A tool entry in Claude's tool-use format, as built by
`_convert_mcp_tools_to_claude_format`. -/
structure ClaudeTool where
  name : String
  description : String
  input_schema : Json
deriving Repr

/-- The fallback schema the source substitutes when a descriptor carries no
(truthy) schema: `{"type": "object", "properties": {}}`. -/
def fallback_schema : Json :=
  Json.obj [("type", Json.str "object"), ("properties", Json.obj [])]

/-- One iteration of the conversion loop in
`_convert_mcp_tools_to_claude_format` (client.py lines 55-72). -/
def convert_tool (tool : ToolDescriptor) : ClaudeTool :=
  { name := tool.name
    -- `"description": tool.description or ""`
    description := tool.description.getD ""
    -- `if hasattr(tool, 'inputSchema') and tool.inputSchema:` then the
    -- descriptor's schema, `else` the fallback schema
    input_schema :=
      match tool.inputSchema with
      | some s => if s.truthy then s else fallback_schema
      | none => fallback_schema }

/-- Embeds `_convert_mcp_tools_to_claude_format` (client.py lines 49-74): the loop
appends one converted entry per descriptor, in order. -/
def _convert_mcp_tools_to_claude_format (available_tools : List ToolDescriptor) :
    List ClaudeTool :=
  available_tools.map convert_tool

/-- One element of a `CallToolResult.content` list; per the MCP interface it
exposes a text field. -/
structure ContentItem where
  text : String
deriving Repr

/-- The result of a successful `mcp_session.call_tool`. -/
structure CallToolResult where
  content : List ContentItem
deriving Repr

/-- Embeds `_execute_mcp_tool` (client.py lines 76-90).  `call_tool` is the remote
MCP session's endpoint; `.error e` models the call raising an exception
whose `str` is `e`.  The `try/except` catches every exception and returns
the error string, so the function is total. -/
def _execute_mcp_tool (call_tool : String → Json → Except String CallToolResult)
    (tool_name : String) (arguments : Json) : String :=
  match call_tool tool_name arguments with
  | .ok result =>
    -- `if result.content and len(result.content) > 0: return result.content[0].text`
    match result.content with
    | c :: _ => c.text
    | [] => "Tool " ++ tool_name ++ " executed successfully but returned no content."
  | .error e => "Error executing tool " ++ tool_name ++ ": " ++ e

/-- Message roles in the chat history. -/
inductive Role where
  | system
  | user
  | assistant
deriving Repr, DecidableEq

/-- A content block of a model response or of a structured message. `other`
stands for any block type that is neither `"text"` nor `"tool_use"` nor
`"tool_result"`; the source ignores such blocks. -/
inductive ContentBlock where
  | text (t : String)
  | tool_use (id : String) (name : String) (input : Json)
  | tool_result (tool_use_id : String) (content : String)
  | other
deriving Repr

/-- A message's `content`: plain text or a list of content blocks. -/
inductive MsgContent where
  | text (s : String)
  | blocks (bs : List ContentBlock)
deriving Repr

/-- A chat message as the caller supplies it and as the client builds it. -/
structure Message where
  role : Role
  content : MsgContent
deriving Repr

/-- A request to `claude_client.messages.create`.  `tools = none` models the
keyword being absent or `None`: no tool list attached. -/
structure Request where
  model : String
  max_tokens : Nat
  system : Option MsgContent
  messages : List Message
  tools : Option (List ClaudeTool)
deriving Repr

/-- A response from `claude_client.messages.create`. -/
structure Response where
  stop_reason : String
  content : List ContentBlock
deriving Repr

/-- The system-message extraction loop of `chat_with_tools` (client.py lines
112-116): each system-role message overwrites `system_message`, so the last
one encountered wins. -/
def find_system_message (messages : List Message) : Option MsgContent :=
  messages.foldl
    (fun system_message msg =>
      if msg.role == Role.system then some msg.content else system_message)
    none

/-- The other half of the same loop: non-system messages are appended to
`conversation_messages` in order. -/
def non_system_messages (messages : List Message) : List Message :=
  messages.filter (fun msg => !(msg.role == Role.system))

/-- The first completion request of `chat_with_tools` (client.py lines
119-125): `tools=claude_tools if claude_tools else None`. -/
def initialRequest (available_tools : List ToolDescriptor) (messages : List Message)
    (model : String) (max_tokens : Nat) : Request :=
  let claude_tools := _convert_mcp_tools_to_claude_format available_tools
  { model := model
    max_tokens := max_tokens
    system := find_system_message messages
    messages := non_system_messages messages
    tools := if claude_tools.isEmpty then none else some claude_tools }

/-- The tool-call processing loop of `chat_with_tools` (client.py lines
136-152): for each `tool_use` block, in order, execute the tool and append a
`tool_result` block carrying the block's id.  Returns the `tool_results`
list together with the dispatch log (the `(tool_name, tool_input)` of each
`_execute_mcp_tool` call, in call order). -/
def processToolCalls (call_tool : String → Json → Except String CallToolResult) :
    List ContentBlock → List ContentBlock × List (String × Json)
  | [] => ([], [])
  | b :: rest =>
    match b with
    | .tool_use id name input =>
      let tool_result := _execute_mcp_tool call_tool name input
      let (rs, ds) := processToolCalls call_tool rest
      (ContentBlock.tool_result id tool_result :: rs, (name, input) :: ds)
    | _ => processToolCalls call_tool rest

/-- The second completion request of `chat_with_tools` (client.py lines
161-166): the assistant's raw content and the single user message holding
the tool results are appended to the conversation; no `tools` keyword is
passed. -/
def followupRequest (messages : List Message) (model : String) (max_tokens : Nat)
    (response : Response) (tool_results : List ContentBlock) : Request :=
  { model := model
    max_tokens := max_tokens
    system := find_system_message messages
    messages := non_system_messages messages
      ++ [{ role := Role.assistant, content := MsgContent.blocks response.content },
          { role := Role.user, content := MsgContent.blocks tool_results }]
    tools := none }

/-- The `text_content` extraction loops of `chat_with_tools` (client.py
lines 169-174 and 178-183): start from `""` and `+=` the text of every
`"text"`-typed block, in order. -/
def extractText (blocks : List ContentBlock) : String :=
  blocks.foldl
    (fun text_content b =>
      match b with
      | .text t => text_content ++ t
      | _ => text_content)
    ""

/-- What one call of `chat_with_tools` produced.  `result` is the returned
string, or the propagated failure of a completion call.  `requests` and
`dispatches` log the completion requests issued and the tool dispatches
performed, in order.  `messages_after` is the caller's `messages` list as
the call leaves it: every `.append` in the source targets the local
`conversation_messages` list (created empty at line 110), and no statement
mutates `messages`, so the embedding threads the caller's list through
unchanged; the field makes that frame condition statable. -/
structure ChatOutcome where
  result : Except String String
  requests : List Request
  dispatches : List (String × Json)
  messages_after : List Message
deriving Repr

/-- Embeds `chat_with_tools` (client.py lines 92-183).  `claude` is the
`claude_client.messages.create` endpoint (an `.error` return models the call
raising, which the source does not catch); `call_tool` is the MCP session's
endpoint used by `_execute_mcp_tool`; `available_tools` is the session's
cached catalog. -/
def chat_with_tools (claude : Request → Except String Response)
    (call_tool : String → Json → Except String CallToolResult)
    (available_tools : List ToolDescriptor) (messages : List Message)
    (model : String) (max_tokens : Nat) : ChatOutcome :=
  match claude (initialRequest available_tools messages model max_tokens) with
  | .error e =>
    ⟨.error e, [initialRequest available_tools messages model max_tokens], [], messages⟩
  | .ok response =>
    if response.stop_reason == "tool_use" then
      match claude (followupRequest messages model max_tokens response
          (processToolCalls call_tool response.content).1) with
      | .error e =>
        ⟨.error e,
          [initialRequest available_tools messages model max_tokens,
           followupRequest messages model max_tokens response
             (processToolCalls call_tool response.content).1],
          (processToolCalls call_tool response.content).2, messages⟩
      | .ok final_response =>
        ⟨.ok (extractText final_response.content),
          [initialRequest available_tools messages model max_tokens,
           followupRequest messages model max_tokens response
             (processToolCalls call_tool response.content).1],
          (processToolCalls call_tool response.content).2, messages⟩
    else
      ⟨.ok (extractText response.content),
        [initialRequest available_tools messages model max_tokens], [], messages⟩

/-- The `(id, name, input)` triples of the `tool_use` blocks of a content
list, in order. -/
def toolUseBlocks (blocks : List ContentBlock) : List (String × String × Json) :=
  blocks.filterMap fun b =>
    match b with
    | .tool_use id name input => some (id, name, input)
    | _ => none

/-- Resources released by `__aexit__`. -/
inductive Resource where
  | session
  | connection
deriving Repr, DecidableEq

/-- Embeds `__aexit__` (client.py lines 42-47).  `has_session` is the truthiness of
`self.mcp_session`, `has_conn` is `hasattr(self, 'sse_connection')`;
`session_release` and `conn_release` are the outcomes of the two awaited
`__aexit__` calls (`.error` models the call raising).  Returns the list of
release calls actually made, in order, and the exception that escaped, if
any.  There is no `try/finally`: a raise from the session's release skips
the connection's release. -/
def aexit (has_session : Bool) (has_conn : Bool)
    (session_release : Except String Unit) (conn_release : Except String Unit) :
    List Resource × Option String :=
  if has_session then
    match session_release with
    | .error e => ([Resource.session], some e)
    | .ok _ =>
      if has_conn then
        match conn_release with
        | .error e => ([Resource.session, Resource.connection], some e)
        | .ok _ => ([Resource.session, Resource.connection], none)
      else
        ([Resource.session], none)
  else
    if has_conn then
      match conn_release with
      | .error e => ([Resource.connection], some e)
      | .ok _ => ([Resource.connection], none)
    else
      ([], none)


/-! ### Fixtures: concrete oracles and inputs used by the witness and
counterexample theorems -/

/-- The text of the `"text"`-typed blocks of a content list, in order. -/
def textBlocks (blocks : List ContentBlock) : List String :=
  blocks.filterMap fun b =>
    match b with
    | .text t => some t
    | _ => none

/-- A remote endpoint whose every call raises `"network down"`. -/
def failing_call_tool : String → Json → Except String CallToolResult :=
  fun _ _ => .error "network down"

/-- A remote endpoint: `"get_weather"` answers with one text element, every
other tool answers with an empty content list. -/
def sample_call_tool : String → Json → Except String CallToolResult :=
  fun tool_name _ =>
    if tool_name == "get_weather" then
      .ok { content := [{ text := "The weather in Tokyo is sunny." }] }
    else
      .ok { content := [] }

/-- A two-descriptor catalog: a full descriptor and one with no description
and no schema. -/
def sample_catalog : List ToolDescriptor :=
  [{ name := "get_weather", description := some "Get weather for a city",
     inputSchema := some (Json.obj [("type", Json.str "object"),
       ("properties", Json.obj [("city", Json.obj [("type", Json.str "string")])])]) },
   { name := "bare_tool", description := none, inputSchema := none }]

/-- A user-only history. -/
def user_messages : List Message :=
  [{ role := Role.user, content := MsgContent.text "What is the weather in Tokyo?" }]

/-- A history with two system-role messages followed by a user message. -/
def two_system_messages : List Message :=
  [{ role := Role.system, content := MsgContent.text "First system prompt" },
   { role := Role.system, content := MsgContent.text "Second system prompt" },
   { role := Role.user, content := MsgContent.text "Hi" }]

/-- An ordinary completion: stop reason `"end_turn"`, one text block. -/
def plain_response : Response :=
  { stop_reason := "end_turn", content := [ContentBlock.text "Hello."] }

/-- A tool-use response with a single `tool_use` block. -/
def tool_use_response : Response :=
  { stop_reason := "tool_use",
    content := [ContentBlock.tool_use "toolu_01" "get_weather"
      (Json.obj [("city", Json.str "Tokyo")])] }

/-- A final completion with one text block. -/
def final_text_response : Response :=
  { stop_reason := "end_turn", content := [ContentBlock.text "The weather in Tokyo is sunny today."] }

/-- A final completion with no content blocks at all. -/
def empty_final_response : Response :=
  { stop_reason := "end_turn", content := [] }

/-- A completion endpoint that always returns `plain_response`. -/
def claude_plain : Request → Except String Response :=
  fun _ => .ok plain_response

/-- A completion endpoint that answers a request carrying a tool list with
`tool_use_response` and every other request with `final_text_response`. -/
def claude_weather : Request → Except String Response :=
  fun req => if req.tools.isSome then .ok tool_use_response else .ok final_text_response

/-- A completion endpoint that answers a request carrying a tool list with
`tool_use_response` and every other request with `empty_final_response`. -/
def claude_tool_then_empty : Request → Except String Response :=
  fun req => if req.tools.isSome then .ok tool_use_response else .ok empty_final_response


/-! ### Helper lemmas -/

theorem string_append_ne_empty (s t : String) (hs : s.data ≠ []) : s ++ t ≠ "" := by
  intro h
  apply hs
  have hd := congrArg String.data h
  rw [String.data_append] at hd
  exact (List.append_eq_nil.mp hd).1

/-! ### C4: the dispatcher catches every failure of the remote call -/

/-- C4: for every tool name and argument mapping, if the remote call inside
`_execute_mcp_tool` raises an exception with text `e`, the function catches
it and returns exactly `"Error executing tool {name}: {e}"`; the exception
never propagates (the embedding's return type is `String`, not `Except`). -/
theorem C4_dispatcher_error_contained
    (call_tool : String → Json → Except String CallToolResult)
    (tool_name : String) (arguments : Json) (e : String)
    (h : call_tool tool_name arguments = .error e) :
    _execute_mcp_tool call_tool tool_name arguments =
      "Error executing tool " ++ tool_name ++ ": " ++ e := by
  simp [_execute_mcp_tool, h]


theorem C4_dispatcher_error_contained_witness :
    failing_call_tool "get_weather" (Json.obj [("city", Json.str "Tokyo")]) =
      Except.error "network down" ∧
    _execute_mcp_tool failing_call_tool "get_weather"
        (Json.obj [("city", Json.str "Tokyo")]) =
      "Error executing tool get_weather: network down" :=
  ⟨rfl,
    C4_dispatcher_error_contained failing_call_tool "get_weather"
      (Json.obj [("city", Json.str "Tokyo")]) "network down" rfl⟩

/-! ### C5: the dispatcher's behavior on a successful remote call -/

/-- C5: for every tool call whose remote invocation succeeds,
`_execute_mcp_tool` returns the text of the first content element when the
content is non-empty, and when the content is empty it returns the
placeholder string naming the tool, which is never the empty string. -/
theorem C5_dispatcher_success
    (call_tool : String → Json → Except String CallToolResult)
    (tool_name : String) (arguments : Json) (result : CallToolResult)
    (h : call_tool tool_name arguments = .ok result) :
    (∀ c rest, result.content = c :: rest →
      _execute_mcp_tool call_tool tool_name arguments = c.text) ∧
    (result.content = [] →
      _execute_mcp_tool call_tool tool_name arguments =
        "Tool " ++ tool_name ++ " executed successfully but returned no content." ∧
      _execute_mcp_tool call_tool tool_name arguments ≠ "") := by
  constructor
  · intro c rest hc
    simp [_execute_mcp_tool, h, hc]
  · intro hc
    constructor
    · simp [_execute_mcp_tool, h, hc]
    · simp only [_execute_mcp_tool, h, hc]
      apply string_append_ne_empty
      rw [String.data_append]
      intro hnil
      exact absurd (List.append_eq_nil.mp hnil).1 (by decide)


theorem C5_dispatcher_success_witness :
    sample_call_tool "get_weather" (Json.obj [("city", Json.str "Tokyo")]) =
      Except.ok { content := [{ text := "The weather in Tokyo is sunny." }] } ∧
    _execute_mcp_tool sample_call_tool "get_weather"
        (Json.obj [("city", Json.str "Tokyo")]) =
      "The weather in Tokyo is sunny." ∧
    sample_call_tool "silent_tool" (Json.obj []) = Except.ok { content := [] } ∧
    _execute_mcp_tool sample_call_tool "silent_tool" (Json.obj []) =
      "Tool silent_tool executed successfully but returned no content." ∧
    _execute_mcp_tool sample_call_tool "silent_tool" (Json.obj []) ≠ "" := by
  refine ⟨rfl, ?_, rfl, ?_, ?_⟩
  · exact (C5_dispatcher_success sample_call_tool "get_weather"
      (Json.obj [("city", Json.str "Tokyo")])
      { content := [{ text := "The weather in Tokyo is sunny." }] } rfl).1
      { text := "The weather in Tokyo is sunny." } [] rfl
  · exact ((C5_dispatcher_success sample_call_tool "silent_tool" (Json.obj [])
      { content := [] } rfl).2 rfl).1
  · exact ((C5_dispatcher_success sample_call_tool "silent_tool" (Json.obj [])
      { content := [] } rfl).2 rfl).2

/-! ### C2: the tool-catalog conversion -/

/-- The converted entry's schema is never `null`: either it is the
descriptor's truthy schema (and `null` is falsy), or it is the fallback
schema. -/
theorem convert_tool_input_schema_ne_null (d : ToolDescriptor) :
    (convert_tool d).input_schema ≠ Json.null := by
  unfold convert_tool
  cases hs : d.inputSchema with
  | none => simp [fallback_schema]
  | some s =>
    by_cases ht : s.truthy
    · simp only [ht, if_true]
      intro hnull
      rw [hnull] at ht
      simp [Json.truthy] at ht
    · simp [ht, fallback_schema]

/-- C2 counterexample: a descriptor that carries a schema which is the empty
JSON object (present, but falsy under Python truthiness) is converted to the
fallback schema, not to its own schema, so "the descriptor's schema when
present" fails as stated. -/
theorem C2_counterexample :
    (_convert_mcp_tools_to_claude_format
        [{ name := "get_weather", description := some "Weather lookup",
           inputSchema := some (Json.obj []) }]).map ClaudeTool.input_schema =
      [fallback_schema] ∧
    fallback_schema ≠ Json.obj [] := by
  constructor
  · rfl
  · intro h
    simp [fallback_schema] at h

/-- C2 (amended): `_convert_mcp_tools_to_claude_format` produces exactly one
entry per descriptor, preserving order and name; each entry's description is
the descriptor's description or `""` when absent; each entry's
`input_schema` is never `null`: it is the descriptor's schema when that
schema is present and truthy, and the fallback schema when the schema is
absent or falsy (e.g. the empty object). -/
theorem C2_catalog_adapter (catalog : List ToolDescriptor) :
    (_convert_mcp_tools_to_claude_format catalog).length = catalog.length ∧
    (_convert_mcp_tools_to_claude_format catalog).map ClaudeTool.name =
      catalog.map ToolDescriptor.name ∧
    (∀ i : Nat, (_convert_mcp_tools_to_claude_format catalog)[i]? =
      catalog[i]?.map convert_tool) ∧
    (∀ e ∈ _convert_mcp_tools_to_claude_format catalog, e.input_schema ≠ Json.null) ∧
    (∀ d : ToolDescriptor,
      (convert_tool d).name = d.name ∧
      (convert_tool d).description = d.description.getD "" ∧
      (∀ s, d.inputSchema = some s → s.truthy → (convert_tool d).input_schema = s) ∧
      (d.inputSchema = none → (convert_tool d).input_schema = fallback_schema) ∧
      (∀ s, d.inputSchema = some s → s.truthy = false →
        (convert_tool d).input_schema = fallback_schema)) := by
  refine ⟨?_, ?_, ?_, ?_, ?_⟩
  · simp [_convert_mcp_tools_to_claude_format]
  · simp only [_convert_mcp_tools_to_claude_format, List.map_map]
    rfl
  · intro i
    simp [_convert_mcp_tools_to_claude_format, List.getElem?_map]
  · intro e he
    simp only [_convert_mcp_tools_to_claude_format, List.mem_map] at he
    obtain ⟨d, _, rfl⟩ := he
    exact convert_tool_input_schema_ne_null d
  · intro d
    refine ⟨rfl, rfl, ?_, ?_, ?_⟩
    · intro s hs ht
      simp [convert_tool, hs, ht]
    · intro hs
      simp [convert_tool, hs]
    · intro s hs ht
      simp [convert_tool, hs, ht]


theorem C2_catalog_adapter_witness :
    (_convert_mcp_tools_to_claude_format sample_catalog).length = 2 ∧
    (_convert_mcp_tools_to_claude_format sample_catalog).map ClaudeTool.name =
      ["get_weather", "bare_tool"] ∧
    (convert_tool { name := "bare_tool", description := none, inputSchema := none
      }).input_schema = fallback_schema ∧
    (convert_tool { name := "bare_tool", description := none, inputSchema := none
      }).description = "" := by
  obtain ⟨h1, h2, -, -, h5⟩ := C2_catalog_adapter sample_catalog
  exact ⟨h1, h2,
    (h5 { name := "bare_tool", description := none, inputSchema := none }).2.2.2.1 rfl,
    (h5 { name := "bare_tool", description := none, inputSchema := none }).2.1⟩

/-! ### Text extraction: `extractText` is the in-order concatenation of the
text blocks -/

theorem extractText_acc (blocks : List ContentBlock) (acc : String) :
    blocks.foldl
      (fun text_content b =>
        match b with
        | ContentBlock.text t => text_content ++ t
        | _ => text_content) acc
    = acc ++ extractText blocks := by
  induction blocks generalizing acc with
  | nil => simp [extractText, String.append_empty]
  | cons b rest ih =>
    cases b with
    | text t =>
      have h1 := ih (acc ++ t)
      have h2 := ih ("" ++ t)
      simp only [extractText, List.foldl_cons] at h1 h2 ⊢
      rw [h1, h2, String.empty_append, String.append_assoc]
    | tool_use id name input =>
      simpa only [extractText, List.foldl_cons] using ih acc
    | tool_result id content =>
      simpa only [extractText, List.foldl_cons] using ih acc
    | other =>
      simpa only [extractText, List.foldl_cons] using ih acc


theorem extractText_cons_text (t : String) (rest : List ContentBlock) :
    extractText (ContentBlock.text t :: rest) = t ++ extractText rest := by
  simp only [extractText, List.foldl_cons]
  rw [extractText_acc rest ("" ++ t), String.empty_append]
  rfl

/-- The function `extractText` concatenates exactly the text blocks, in order. -/
theorem extractText_eq_concat (blocks : List ContentBlock) :
    extractText blocks = (textBlocks blocks).foldr (· ++ ·) "" := by
  induction blocks with
  | nil => rfl
  | cons b rest ih =>
    cases b with
    | text t =>
      have htb : textBlocks (ContentBlock.text t :: rest) = t :: textBlocks rest := rfl
      rw [extractText_cons_text, htb, List.foldr_cons, ih]
    | tool_use id name input =>
      have htb : textBlocks (ContentBlock.tool_use id name input :: rest)
        = textBlocks rest := rfl
      have he : extractText (ContentBlock.tool_use id name input :: rest)
          = extractText rest := by
        simp only [extractText, List.foldl_cons]
      rw [he, htb, ih]
    | tool_result id content =>
      have htb : textBlocks (ContentBlock.tool_result id content :: rest)
        = textBlocks rest := rfl
      have he : extractText (ContentBlock.tool_result id content :: rest)
          = extractText rest := by
        simp only [extractText, List.foldl_cons]
      rw [he, htb, ih]
    | other =>
      have htb : textBlocks (ContentBlock.other :: rest) = textBlocks rest := rfl
      have he : extractText (ContentBlock.other :: rest) = extractText rest := by
        simp only [extractText, List.foldl_cons]
      rw [he, htb, ih]

/-! ### Control-flow lemmas for `chat_with_tools` -/

/-- If the first completion call raises, the failure propagates and neither
tools nor a second request are issued. -/
theorem chat_with_tools_first_call_fails
    (claude : Request → Except String Response)
    (call_tool : String → Json → Except String CallToolResult)
    (available_tools : List ToolDescriptor) (messages : List Message)
    (model : String) (max_tokens : Nat) (e : String)
    (h1 : claude (initialRequest available_tools messages model max_tokens) = .error e) :
    chat_with_tools claude call_tool available_tools messages model max_tokens =
      { result := .error e,
        requests := [initialRequest available_tools messages model max_tokens],
        dispatches := [],
        messages_after := messages } := by
  unfold chat_with_tools
  rw [h1]

/-- The ordinary-completion branch: any stop reason other than `"tool_use"`
returns the concatenated text with no dispatch and no second request. -/
theorem chat_with_tools_plain
    (claude : Request → Except String Response)
    (call_tool : String → Json → Except String CallToolResult)
    (available_tools : List ToolDescriptor) (messages : List Message)
    (model : String) (max_tokens : Nat) (response : Response)
    (h1 : claude (initialRequest available_tools messages model max_tokens) = .ok response)
    (h2 : response.stop_reason ≠ "tool_use") :
    chat_with_tools claude call_tool available_tools messages model max_tokens =
      { result := .ok (extractText response.content),
        requests := [initialRequest available_tools messages model max_tokens],
        dispatches := [],
        messages_after := messages } := by
  unfold chat_with_tools
  rw [h1]
  simp only [beq_iff_eq, if_neg h2]

/-- The tool-use branch with a successful second completion call. -/
theorem chat_with_tools_tool_use_ok
    (claude : Request → Except String Response)
    (call_tool : String → Json → Except String CallToolResult)
    (available_tools : List ToolDescriptor) (messages : List Message)
    (model : String) (max_tokens : Nat) (response final_response : Response)
    (h1 : claude (initialRequest available_tools messages model max_tokens) = .ok response)
    (h2 : response.stop_reason = "tool_use")
    (h3 : claude (followupRequest messages model max_tokens response
            (processToolCalls call_tool response.content).1) = .ok final_response) :
    chat_with_tools claude call_tool available_tools messages model max_tokens =
      { result := .ok (extractText final_response.content),
        requests := [initialRequest available_tools messages model max_tokens,
          followupRequest messages model max_tokens response
            (processToolCalls call_tool response.content).1],
        dispatches := (processToolCalls call_tool response.content).2,
        messages_after := messages } := by
  unfold chat_with_tools
  rw [h1]
  simp only [beq_iff_eq, if_pos h2]
  rw [h3]

/-- The tool-use branch with a failing second completion call: the failure
propagates, after all tools were dispatched. -/
theorem chat_with_tools_tool_use_fails
    (claude : Request → Except String Response)
    (call_tool : String → Json → Except String CallToolResult)
    (available_tools : List ToolDescriptor) (messages : List Message)
    (model : String) (max_tokens : Nat) (response : Response) (e : String)
    (h1 : claude (initialRequest available_tools messages model max_tokens) = .ok response)
    (h2 : response.stop_reason = "tool_use")
    (h3 : claude (followupRequest messages model max_tokens response
            (processToolCalls call_tool response.content).1) = .error e) :
    chat_with_tools claude call_tool available_tools messages model max_tokens =
      { result := .error e,
        requests := [initialRequest available_tools messages model max_tokens,
          followupRequest messages model max_tokens response
            (processToolCalls call_tool response.content).1],
        dispatches := (processToolCalls call_tool response.content).2,
        messages_after := messages } := by
  unfold chat_with_tools
  rw [h1]
  simp only [beq_iff_eq, if_pos h2]
  rw [h3]

/-- The tool-call loop produces one `tool_result` block and one dispatch per
`tool_use` block, in order, and each `tool_result` carries the id of its
originating block. -/
theorem processToolCalls_eq
    (call_tool : String → Json → Except String CallToolResult)
    (blocks : List ContentBlock) :
    processToolCalls call_tool blocks =
      ((toolUseBlocks blocks).map fun u =>
          ContentBlock.tool_result u.1 (_execute_mcp_tool call_tool u.2.1 u.2.2),
       (toolUseBlocks blocks).map fun u => (u.2.1, u.2.2)) := by
  induction blocks with
  | nil => rfl
  | cons b rest ih =>
    cases b with
    | text t => simpa only [processToolCalls, toolUseBlocks, List.filterMap_cons] using ih
    | tool_use id name input =>
      simp only [processToolCalls, toolUseBlocks, List.filterMap_cons, List.map_cons, ih]
    | tool_result id content =>
      simpa only [processToolCalls, toolUseBlocks, List.filterMap_cons] using ih
    | other => simpa only [processToolCalls, toolUseBlocks, List.filterMap_cons] using ih

/-! ### System-message extraction and request-shape lemmas -/

/-- The overwriting loop keeps the content of the last system-role message:
`find_system_message` is the first system message of the reversed history. -/
theorem find_system_message_eq_last (messages : List Message) :
    find_system_message messages =
      (messages.reverse.find? (fun m => m.role == Role.system)).map Message.content := by
  induction messages using List.reverseRecOn with
  | nil => rfl
  | append_singleton l m ih =>
    rw [find_system_message, List.foldl_append, List.reverse_append]
    simp only [List.foldl_cons, List.foldl_nil, List.reverse_singleton,
      List.singleton_append]
    by_cases hm : (m.role == Role.system) = true
    · rw [if_pos hm]
      simp only [List.find?, hm, Option.map_some']
    · have hm' : (m.role == Role.system) = false := by simpa using hm
      rw [if_neg hm]
      simp only [List.find?, hm']
      exact ih

/-- Every message surviving the partition is non-system. -/
theorem non_system_messages_no_system (messages : List Message) :
    ∀ m ∈ non_system_messages messages, m.role ≠ Role.system := by
  intro m hm
  rw [non_system_messages, List.mem_filter] at hm
  simpa using hm.2

/-- The follow-up request's message sequence holds no system-role message:
the partitioned conversation plus one assistant and one user message. -/
theorem followupRequest_no_system (messages : List Message) (model : String)
    (max_tokens : Nat) (response : Response) (tool_results : List ContentBlock) :
    ∀ m ∈ (followupRequest messages model max_tokens response tool_results).messages,
      m.role ≠ Role.system := by
  intro m hm
  simp only [followupRequest, List.mem_append, List.mem_cons,
    List.not_mem_nil, or_false] at hm
  rcases hm with hm | hm | hm
  · exact non_system_messages_no_system messages m hm
  · rw [hm]
    intro hcontra
    cases hcontra
  · rw [hm]
    intro hcontra
    cases hcontra

/-- Every request `chat_with_tools` issues is the initial request or a
follow-up request built from some first response. -/
theorem chat_with_tools_requests_cases
    (claude : Request → Except String Response)
    (call_tool : String → Json → Except String CallToolResult)
    (available_tools : List ToolDescriptor) (messages : List Message)
    (model : String) (max_tokens : Nat) :
    ∀ req ∈ (chat_with_tools claude call_tool available_tools messages model max_tokens).requests,
      req = initialRequest available_tools messages model max_tokens ∨
      ∃ response, req = followupRequest messages model max_tokens response
        (processToolCalls call_tool response.content).1 := by
  intro req hreq
  cases h1 : claude (initialRequest available_tools messages model max_tokens) with
  | error e =>
    rw [chat_with_tools_first_call_fails claude call_tool available_tools messages
      model max_tokens e h1] at hreq
    simp only [List.mem_singleton] at hreq
    exact Or.inl hreq
  | ok response =>
    by_cases h2 : response.stop_reason = "tool_use"
    · cases h3 : claude (followupRequest messages model max_tokens response
          (processToolCalls call_tool response.content).1) with
      | error e =>
        rw [chat_with_tools_tool_use_fails claude call_tool available_tools messages
          model max_tokens response e h1 h2 h3] at hreq
        simp only [List.mem_cons, List.not_mem_nil, or_false] at hreq
        rcases hreq with rfl | rfl
        · exact Or.inl rfl
        · exact Or.inr ⟨response, rfl⟩
      | ok final_response =>
        rw [chat_with_tools_tool_use_ok claude call_tool available_tools messages
          model max_tokens response final_response h1 h2 h3] at hreq
        simp only [List.mem_cons, List.not_mem_nil, or_false] at hreq
        rcases hreq with rfl | rfl
        · exact Or.inl rfl
        · exact Or.inr ⟨response, rfl⟩
    · rw [chat_with_tools_plain claude call_tool available_tools messages model
        max_tokens response h1 h2] at hreq
      simp only [List.mem_singleton] at hreq
      exact Or.inl hreq

/-! ### C3: ordinary completion -/

/-- C3: for every first model response whose stop reason is not tool-use,
`chat_with_tools` performs no tool dispatch and no second completion
request, and returns exactly the in-order concatenation of the text of the
text-typed content blocks — the empty string when there are none. -/
theorem C3_ordinary_completion
    (claude : Request → Except String Response)
    (call_tool : String → Json → Except String CallToolResult)
    (available_tools : List ToolDescriptor) (messages : List Message)
    (model : String) (max_tokens : Nat) (response : Response)
    (h1 : claude (initialRequest available_tools messages model max_tokens) = .ok response)
    (h2 : response.stop_reason ≠ "tool_use") :
    (chat_with_tools claude call_tool available_tools messages model max_tokens).dispatches
      = [] ∧
    (chat_with_tools claude call_tool available_tools messages model max_tokens).requests
      = [initialRequest available_tools messages model max_tokens] ∧
    (chat_with_tools claude call_tool available_tools messages model max_tokens).result
      = .ok ((textBlocks response.content).foldr (· ++ ·) "") ∧
    (textBlocks response.content = [] →
      (chat_with_tools claude call_tool available_tools messages model max_tokens).result
        = .ok "") := by
  rw [chat_with_tools_plain claude call_tool available_tools messages model max_tokens
    response h1 h2]
  refine ⟨rfl, rfl, ?_, ?_⟩
  · rw [extractText_eq_concat]
  · intro h
    rw [extractText_eq_concat, h]
    rfl

theorem C3_ordinary_completion_witness :
    claude_plain (initialRequest [] user_messages "claude-3-5-sonnet-20241022" 1024)
      = Except.ok plain_response ∧
    plain_response.stop_reason ≠ "tool_use" ∧
    (chat_with_tools claude_plain sample_call_tool [] user_messages
      "claude-3-5-sonnet-20241022" 1024).dispatches = [] ∧
    (chat_with_tools claude_plain sample_call_tool [] user_messages
      "claude-3-5-sonnet-20241022" 1024).requests.length = 1 ∧
    (chat_with_tools claude_plain sample_call_tool [] user_messages
      "claude-3-5-sonnet-20241022" 1024).result = Except.ok "Hello." := by
  have h := C3_ordinary_completion claude_plain sample_call_tool [] user_messages
    "claude-3-5-sonnet-20241022" 1024 plain_response rfl (by decide)
  refine ⟨rfl, by decide, h.1, ?_, ?_⟩
  · rw [h.2.1]
    rfl
  · rw [h.2.2.1]
    rfl

/-! ### C1: the tool-use round -/

/-- C1: for every first model response whose stop reason is tool-use with N
tool-use content blocks, `chat_with_tools` dispatches exactly N tool calls,
in block order; the single user-role message appended before the follow-up
request carries exactly N tool-result entries, each with the `tool_use_id`
of its originating block; and the follow-up request is issued with the same
model, system and max-tokens parameters and no tool list. -/
theorem C1_tool_use_round
    (claude : Request → Except String Response)
    (call_tool : String → Json → Except String CallToolResult)
    (available_tools : List ToolDescriptor) (messages : List Message)
    (model : String) (max_tokens : Nat) (response : Response)
    (h1 : claude (initialRequest available_tools messages model max_tokens) = .ok response)
    (h2 : response.stop_reason = "tool_use") :
    (chat_with_tools claude call_tool available_tools messages model max_tokens).dispatches
      = (toolUseBlocks response.content).map (fun u => (u.2.1, u.2.2)) ∧
    (chat_with_tools claude call_tool available_tools messages model max_tokens).dispatches.length
      = (toolUseBlocks response.content).length ∧
    (chat_with_tools claude call_tool available_tools messages model max_tokens).requests
      = [initialRequest available_tools messages model max_tokens,
         followupRequest messages model max_tokens response
           ((toolUseBlocks response.content).map fun u =>
             ContentBlock.tool_result u.1 (_execute_mcp_tool call_tool u.2.1 u.2.2))] ∧
    ((toolUseBlocks response.content).map fun u =>
        ContentBlock.tool_result u.1 (_execute_mcp_tool call_tool u.2.1 u.2.2)).length
      = (toolUseBlocks response.content).length ∧
    (followupRequest messages model max_tokens response
        ((toolUseBlocks response.content).map fun u =>
          ContentBlock.tool_result u.1 (_execute_mcp_tool call_tool u.2.1 u.2.2))).messages
      = non_system_messages messages
        ++ [{ role := Role.assistant, content := MsgContent.blocks response.content },
            { role := Role.user, content := (MsgContent.blocks
              ((toolUseBlocks response.content).map fun u =>
                ContentBlock.tool_result u.1 (_execute_mcp_tool call_tool u.2.1 u.2.2))) }] ∧
    (followupRequest messages model max_tokens response
        ((toolUseBlocks response.content).map fun u =>
          ContentBlock.tool_result u.1 (_execute_mcp_tool call_tool u.2.1 u.2.2))).model
      = (initialRequest available_tools messages model max_tokens).model ∧
    (followupRequest messages model max_tokens response
        ((toolUseBlocks response.content).map fun u =>
          ContentBlock.tool_result u.1 (_execute_mcp_tool call_tool u.2.1 u.2.2))).max_tokens
      = (initialRequest available_tools messages model max_tokens).max_tokens ∧
    (followupRequest messages model max_tokens response
        ((toolUseBlocks response.content).map fun u =>
          ContentBlock.tool_result u.1 (_execute_mcp_tool call_tool u.2.1 u.2.2))).system
      = (initialRequest available_tools messages model max_tokens).system ∧
    (followupRequest messages model max_tokens response
        ((toolUseBlocks response.content).map fun u =>
          ContentBlock.tool_result u.1 (_execute_mcp_tool call_tool u.2.1 u.2.2))).tools
      = none := by
  have hpt := processToolCalls_eq call_tool response.content
  have hreq : (chat_with_tools claude call_tool available_tools messages model
      max_tokens).requests
      = [initialRequest available_tools messages model max_tokens,
         followupRequest messages model max_tokens response
           (processToolCalls call_tool response.content).1] ∧
      (chat_with_tools claude call_tool available_tools messages model
        max_tokens).dispatches = (processToolCalls call_tool response.content).2 := by
    cases h3 : claude (followupRequest messages model max_tokens response
        (processToolCalls call_tool response.content).1) with
    | error e =>
      rw [chat_with_tools_tool_use_fails claude call_tool available_tools messages
        model max_tokens response e h1 h2 h3]
      exact ⟨rfl, rfl⟩
    | ok final_response =>
      rw [chat_with_tools_tool_use_ok claude call_tool available_tools messages
        model max_tokens response final_response h1 h2 h3]
      exact ⟨rfl, rfl⟩
  refine ⟨?_, ?_, ?_, by simp, rfl, rfl, rfl, rfl, rfl⟩
  · rw [hreq.2, hpt]
  · rw [hreq.2, hpt]
    simp
  · rw [hreq.1, hpt]

theorem C1_tool_use_round_witness :
    claude_weather (initialRequest sample_catalog user_messages
      "claude-3-5-sonnet-20241022" 1024) = Except.ok tool_use_response ∧
    tool_use_response.stop_reason = "tool_use" ∧
    (chat_with_tools claude_weather sample_call_tool sample_catalog user_messages
      "claude-3-5-sonnet-20241022" 1024).dispatches
      = [("get_weather", Json.obj [("city", Json.str "Tokyo")])] ∧
    (chat_with_tools claude_weather sample_call_tool sample_catalog user_messages
      "claude-3-5-sonnet-20241022" 1024).dispatches.length = 1 ∧
    (chat_with_tools claude_weather sample_call_tool sample_catalog user_messages
      "claude-3-5-sonnet-20241022" 1024).requests.length = 2 ∧
    (chat_with_tools claude_weather sample_call_tool sample_catalog user_messages
      "claude-3-5-sonnet-20241022" 1024).result
      = Except.ok "The weather in Tokyo is sunny today." := by
  have h := C1_tool_use_round claude_weather sample_call_tool sample_catalog
    user_messages "claude-3-5-sonnet-20241022" 1024 tool_use_response rfl rfl
  refine ⟨rfl, rfl, ?_, ?_, ?_, rfl⟩
  · rw [h.1]
    rfl
  · rw [h.2.1]
    rfl
  · rw [h.2.2.1]
    rfl

/-! ### C6: tool-call failures are contained, but the returned string can be
empty -/

/-- C6 counterexample: a run in which the dispatched tool call raises a
transport failure and both completion calls succeed, yet `chat_with_tools`
returns the empty string, because the second response carries no text
blocks.  The turn still completes normally (`Except.ok`). -/
theorem C6_counterexample :
    (chat_with_tools claude_tool_then_empty failing_call_tool sample_catalog
      user_messages "claude-3-5-sonnet-20241022" 1024).dispatches
      = [("get_weather", Json.obj [("city", Json.str "Tokyo")])] ∧
    failing_call_tool "get_weather" (Json.obj [("city", Json.str "Tokyo")])
      = Except.error "network down" ∧
    (chat_with_tools claude_tool_then_empty failing_call_tool sample_catalog
      user_messages "claude-3-5-sonnet-20241022" 1024).result = Except.ok "" :=
  ⟨rfl, rfl, rfl⟩

/-- C6 (amended): for every run in which the first response signals
tool-use and the second completion call succeeds, `chat_with_tools`
completes normally and returns the second response's text concatenation
(possibly empty); a failure raised by a dispatched tool call is never
propagated — the theorem quantifies over every `call_tool`, including ones
whose every call raises. -/
theorem C6_tool_failure_contained
    (claude : Request → Except String Response)
    (call_tool : String → Json → Except String CallToolResult)
    (available_tools : List ToolDescriptor) (messages : List Message)
    (model : String) (max_tokens : Nat) (response final_response : Response)
    (h1 : claude (initialRequest available_tools messages model max_tokens) = .ok response)
    (h2 : response.stop_reason = "tool_use")
    (h3 : claude (followupRequest messages model max_tokens response
            (processToolCalls call_tool response.content).1) = .ok final_response) :
    (chat_with_tools claude call_tool available_tools messages model max_tokens).result
      = .ok (extractText final_response.content) := by
  rw [chat_with_tools_tool_use_ok claude call_tool available_tools messages model
    max_tokens response final_response h1 h2 h3]

theorem C6_tool_failure_contained_witness :
    claude_weather (initialRequest sample_catalog user_messages
      "claude-3-5-sonnet-20241022" 1024) = Except.ok tool_use_response ∧
    tool_use_response.stop_reason = "tool_use" ∧
    claude_weather (followupRequest user_messages "claude-3-5-sonnet-20241022" 1024
      tool_use_response
      (processToolCalls failing_call_tool tool_use_response.content).1)
      = Except.ok final_text_response ∧
    (chat_with_tools claude_weather failing_call_tool sample_catalog user_messages
      "claude-3-5-sonnet-20241022" 1024).result
      = Except.ok "The weather in Tokyo is sunny today." := by
  refine ⟨rfl, rfl, rfl, ?_⟩
  have h := C6_tool_failure_contained claude_weather failing_call_tool sample_catalog
    user_messages "claude-3-5-sonnet-20241022" 1024 tool_use_response
    final_text_response rfl rfl rfl
  rw [h]
  rfl

/-! ### C7: system-message handling -/

/-- C7 counterexample: with two system-role messages in the history, the
request's system parameter carries the content of the second (last) one,
not the first encountered one. -/
theorem C7_counterexample :
    (chat_with_tools claude_plain sample_call_tool [] two_system_messages
      "claude-3-5-sonnet-20241022" 1024).requests
      = [initialRequest [] two_system_messages "claude-3-5-sonnet-20241022" 1024] ∧
    (initialRequest [] two_system_messages "claude-3-5-sonnet-20241022" 1024).system
      = some (MsgContent.text "Second system prompt") ∧
    some (MsgContent.text "Second system prompt")
      ≠ some (MsgContent.text "First system prompt") := by
  refine ⟨rfl, rfl, ?_⟩
  intro h
  simp only [Option.some.injEq, MsgContent.text.injEq] at h
  exact absurd h (by decide)

/-- C7 (amended): no request of `chat_with_tools` carries a system-role
message in its message sequence, and every request's system parameter is
the content of the last encountered system-role message of the input
history (none if there is none). -/
theorem C7_system_extraction
    (claude : Request → Except String Response)
    (call_tool : String → Json → Except String CallToolResult)
    (available_tools : List ToolDescriptor) (messages : List Message)
    (model : String) (max_tokens : Nat) :
    ∀ req ∈ (chat_with_tools claude call_tool available_tools messages model
        max_tokens).requests,
      (∀ m ∈ req.messages, m.role ≠ Role.system) ∧
      req.system = (messages.reverse.find?
        (fun m => m.role == Role.system)).map Message.content := by
  intro req hreq
  rcases chat_with_tools_requests_cases claude call_tool available_tools messages
    model max_tokens req hreq with rfl | ⟨response, rfl⟩
  · exact ⟨non_system_messages_no_system messages,
      find_system_message_eq_last messages⟩
  · exact ⟨followupRequest_no_system messages model max_tokens response _,
      find_system_message_eq_last messages⟩

theorem C7_system_extraction_witness :
    initialRequest [] two_system_messages "claude-3-5-sonnet-20241022" 1024
      ∈ (chat_with_tools claude_plain sample_call_tool [] two_system_messages
          "claude-3-5-sonnet-20241022" 1024).requests ∧
    (∀ m ∈ (initialRequest [] two_system_messages
        "claude-3-5-sonnet-20241022" 1024).messages, m.role ≠ Role.system) ∧
    (initialRequest [] two_system_messages "claude-3-5-sonnet-20241022" 1024).system
      = (two_system_messages.reverse.find?
          (fun m => m.role == Role.system)).map Message.content := by
  have hmem : initialRequest [] two_system_messages "claude-3-5-sonnet-20241022" 1024
      ∈ (chat_with_tools claude_plain sample_call_tool [] two_system_messages
          "claude-3-5-sonnet-20241022" 1024).requests := by
    rw [chat_with_tools_plain claude_plain sample_call_tool [] two_system_messages
      "claude-3-5-sonnet-20241022" 1024 plain_response rfl (by decide)]
    exact List.mem_singleton.mpr rfl
  have h := C7_system_extraction claude_plain sample_call_tool [] two_system_messages
    "claude-3-5-sonnet-20241022" 1024 _ hmem
  exact ⟨hmem, h.1, h.2⟩

/-! ### C8: the empty catalog attaches no tool list -/

/-- C8: when the session's cached tool catalog is empty, no completion
request of `chat_with_tools` carries a tool list. -/
theorem C8_empty_catalog_no_tools
    (claude : Request → Except String Response)
    (call_tool : String → Json → Except String CallToolResult)
    (available_tools : List ToolDescriptor) (messages : List Message)
    (model : String) (max_tokens : Nat)
    (hempty : available_tools = []) :
    ∀ req ∈ (chat_with_tools claude call_tool available_tools messages model
        max_tokens).requests,
      req.tools = none := by
  subst hempty
  intro req hreq
  rcases chat_with_tools_requests_cases claude call_tool [] messages
    model max_tokens req hreq with rfl | ⟨response, rfl⟩
  · rfl
  · rfl

theorem C8_empty_catalog_no_tools_witness :
    initialRequest [] user_messages "claude-3-5-sonnet-20241022" 1024
      ∈ (chat_with_tools claude_plain sample_call_tool [] user_messages
          "claude-3-5-sonnet-20241022" 1024).requests ∧
    (initialRequest [] user_messages "claude-3-5-sonnet-20241022" 1024).tools
      = none := by
  have hmem : initialRequest [] user_messages "claude-3-5-sonnet-20241022" 1024
      ∈ (chat_with_tools claude_plain sample_call_tool [] user_messages
          "claude-3-5-sonnet-20241022" 1024).requests := by
    rw [chat_with_tools_plain claude_plain sample_call_tool [] user_messages
      "claude-3-5-sonnet-20241022" 1024 plain_response rfl (by decide)]
    exact List.mem_singleton.mpr rfl
  exact ⟨hmem, C8_empty_catalog_no_tools claude_plain sample_call_tool []
    user_messages "claude-3-5-sonnet-20241022" 1024 rfl _ hmem⟩

/-! ### C9: release order in `__aexit__` -/

/-- C9 counterexample: when the session's own release raises, `__aexit__`
never releases the underlying SSE connection — there is no `try/finally`
around the session release — so "releases both ... including when releasing
the session itself fails" is false. -/
theorem C9_counterexample :
    (aexit true true (Except.error "session close failed") (Except.ok ())).1
      = [Resource.session] ∧
    Resource.connection
      ∉ (aexit true true (Except.error "session close failed") (Except.ok ())).1 ∧
    (aexit true true (Except.error "session close failed") (Except.ok ())).2
      = some "session close failed" := by
  refine ⟨rfl, ?_, rfl⟩
  intro h
  rw [show (aexit true true (Except.error "session close failed")
      (Except.ok ())).1 = [Resource.session] from rfl] at h
  simp at h

/-- C9 (amended): on every exit path with both resources acquired, the
session's release is attempted first; when the session release returns
normally, the connection is then released (session before connection, both
released); but when the session release raises, the connection release is
skipped and the exception propagates. -/
theorem C9_release_order
    (session_release conn_release : Except String Unit) :
    (aexit true true session_release conn_release).1.head? = some Resource.session ∧
    (session_release = .ok () →
      (aexit true true session_release conn_release).1
        = [Resource.session, Resource.connection]) ∧
    (∀ e, session_release = .error e →
      (aexit true true session_release conn_release).1 = [Resource.session] ∧
      (aexit true true session_release conn_release).2 = some e) := by
  refine ⟨?_, ?_, ?_⟩
  · cases session_release with
    | error e => rfl
    | ok u =>
      cases u
      cases conn_release with
      | error e => rfl
      | ok u2 => cases u2; rfl
  · rintro rfl
    cases conn_release with
    | error e => rfl
    | ok u2 => cases u2; rfl
  · rintro e rfl
    exact ⟨rfl, rfl⟩

theorem C9_release_order_witness :
    (aexit true true (Except.ok ()) (Except.ok ())).1.head? = some Resource.session ∧
    (aexit true true (Except.ok ()) (Except.ok ())).1
      = [Resource.session, Resource.connection] :=
  ⟨(C9_release_order (Except.ok ()) (Except.ok ())).1,
   (C9_release_order (Except.ok ()) (Except.ok ())).2.1 rfl⟩

/-! ### C10: the caller's history is never mutated -/

/-- C10: `chat_with_tools` leaves the caller's `messages` list untouched:
in the source every `.append` targets the local `conversation_messages`
list created at line 110, and no statement mutates `messages`, so the
threaded caller list comes back unchanged on every control path. -/
theorem C10_no_history_mutation
    (claude : Request → Except String Response)
    (call_tool : String → Json → Except String CallToolResult)
    (available_tools : List ToolDescriptor) (messages : List Message)
    (model : String) (max_tokens : Nat) :
    (chat_with_tools claude call_tool available_tools messages model
      max_tokens).messages_after = messages := by
  unfold chat_with_tools
  cases h1 : claude (initialRequest available_tools messages model max_tokens) with
  | error e => rfl
  | ok response =>
    by_cases h2 : response.stop_reason = "tool_use"
    · simp only [beq_iff_eq, if_pos h2]
      cases h3 : claude (followupRequest messages model max_tokens response
          (processToolCalls call_tool response.content).1) with
      | error e => rfl
      | ok final_response => rfl
    · simp only [beq_iff_eq, if_neg h2]
